import Mathlib

/-!
Verification development for the software-framebuffer repository.

The repository consists of two GStreamer C programs:

* `src/framebuffer.c` (and an earlier revision
  `src/backend/src/framebuffer/framebuffer.c`): a frame synchronizer whose
  input callback `on_new_sample` stores the latest decoded frame into a
  mutex-protected single slot, and whose `render_loop` thread pushes one
  buffer per frame period to an appsrc, stamping PTS/DTS/duration itself.

* `src/backend/gstreamer/resilient_tbc.c`: an A/B selector pipeline with a
  watchdog timer, a resume-detecting buffer probe, a dynamic decode chain
  built from the tsdemux pad-added callback, and a bus-message supervisor
  that classifies errors and schedules ingest-chain rebuilds.

Every definition below is a shallow embedding of a concrete C function of
the repository; the source file and function are named in each doc comment.
64-bit unsigned arithmetic (`guint64`) is modelled on `Nat` with an explicit
wrap-around subtraction `sub64` where the C code subtracts timestamps.
-/

/-- 2^64, the modulus of `guint64` arithmetic. -/
def U64 : Nat := 18446744073709551616

/-- Wrapping `guint64` subtraction `a - b`, for `a b < U64`.
For a monotonic clock (`b ≤ a`) this is ordinary subtraction. -/
def sub64 (a b : Nat) : Nat := (a + U64 - b) % U64

/-- `GST_SECOND` (nanoseconds per second). -/
def GST_SECOND : Nat := 1000000000

/-! ## Command-line format parsing (`src/framebuffer.c`) -/

/-- `OutputCodec` enum, `src/framebuffer.c` lines 66-72. -/
inductive OutputCodec
  | RAW
  | H264
  | H265
  | VP8
  | VP9
deriving DecidableEq, Repr

/-- `OutputContainer` enum, `src/framebuffer.c` lines 74-80. -/
inductive OutputContainer
  | RTP
  | MPEGTS
  | SHM
  | RAW_UDP
  | FILE
deriving DecidableEq, Repr

/-- ASCII `tolower` in the C locale: the letters A-Z map to a-z, every
other character is unchanged. -/
def c_tolower (c : Char) : Char :=
  if 'A' ≤ c ∧ c ≤ 'Z' then Char.ofNat (c.toNat + 32) else c

/-- Lower-case every character of a string with the C-locale `tolower`. -/
def str_lower (s : String) : String := ⟨s.data.map c_tolower⟩

/-- `strcasecmp(s, t) == 0`: ASCII case-insensitive string equality, the
comparison used throughout `string_to_codec` and `string_to_container`. -/
def caseEq (s t : String) : Prop := str_lower s = str_lower t

instance (s t : String) : Decidable (caseEq s t) := by
  unfold caseEq; infer_instance

/-- `string_to_codec`, `src/framebuffer.c` lines 179-186. -/
def string_to_codec (s : String) : OutputCodec :=
  if caseEq s "raw" ∨ caseEq s "none" then .RAW
  else if caseEq s "h264" ∨ caseEq s "avc" then .H264
  else if caseEq s "h265" ∨ caseEq s "hevc" then .H265
  else if caseEq s "vp8" then .VP8
  else if caseEq s "vp9" then .VP9
  else .H264

/-- `string_to_container`, `src/framebuffer.c` lines 188-196. -/
def string_to_container (s : String) : OutputContainer :=
  if caseEq s "rtp" then .RTP
  else if caseEq s "mpegts" ∨ caseEq s "ts" then .MPEGTS
  else if caseEq s "shm" ∨ caseEq s "shmem" then .SHM
  else if caseEq s "raw" ∨ caseEq s "none" then .RAW_UDP
  else if caseEq s "file" ∨ caseEq s "mp4" ∨ caseEq s "mkv" ∨ caseEq s "avi" then .FILE
  else .RTP

/-- The lower-case spellings recognised by `string_to_codec`. -/
def codec_names : List String :=
  ["raw", "none", "h264", "avc", "h265", "hevc", "vp8", "vp9"]

/-- The lower-case spellings recognised by `string_to_container`. -/
def container_names : List String :=
  ["rtp", "mpegts", "ts", "shm", "shmem", "raw", "none", "file", "mp4", "mkv", "avi"]

/-- The container installed by `framebuffer_new` (`src/framebuffer.c` line
241) before option parsing; this is the documented default (`print_usage`:
"default: mpegts"). -/
def framebuffer_default_container : OutputContainer := .MPEGTS

/-! ## Output-pipeline appsrc timestamping configuration -/

/-- Whether the appsrc of `create_output_pipeline` in `src/framebuffer.c`
is built with `do-timestamp=true`. Lines 449-481: a single constant
`appsrc_props = "appsrc name=src is-live=true format=time
do-timestamp=false"` is used for every codec/container branch, so the
answer is `false` for every combination. -/
def fb_appsrc_do_timestamp (_codec : OutputCodec) (_container : OutputContainer) : Bool :=
  false

/-- Whether the appsrc of `create_output_pipeline` in
`src/backend/src/framebuffer/framebuffer.c` (lines 381-460) is built with
`do-timestamp=true`, as a function of the three mode flags tested in order:
`shm_output`, `vp8_output`, `raw_output`. The SHM, VP8-RTP and RAW-RTP
pipeline strings all contain `do-timestamp=true`; only the default H.264
MPEG-TS string contains `do-timestamp=false`. -/
def backend_appsrc_do_timestamp (shm_output vp8_output raw_output : Bool) : Bool :=
  if shm_output then true
  else if vp8_output then true
  else if raw_output then true
  else false

/-! ## Frame synchronizer (`src/framebuffer.c`)

State shared between `on_new_sample` (input callback) and `render_loop`
(render thread). GstBuffer/GstCaps pointers are modelled by their
non-NULL-ness; the `guint64` counters are modelled on `Nat` (they are
incremented at most once per frame, so they never approach `2^64`).
`last_input_time` and the `now` arguments are monotonic-clock nanosecond
readings (`g_get_monotonic_time() * 1000`). -/

/-- `DEFAULT_NO_SIGNAL_TIMEOUT` (5 seconds in nanoseconds),
`src/framebuffer.c` line 62. -/
def DEFAULT_NO_SIGNAL_TIMEOUT : Nat := 5000000000

/-- The fields of `struct FrameBuffer` (`src/framebuffer.c` lines 84-147)
touched by `on_new_sample` and `render_loop`, plus the render thread's
local `frame_count`. -/
structure FB where
  current_frame : Bool
  fallback_frame : Bool
  last_input_time : Nat
  frames_in : Nat
  frames_out : Nat
  frames_repeated : Nat
  in_seq : Nat
  last_pushed_seq : Nat
  frame_count : Nat
deriving DecidableEq, Repr

/-- The state at the moment the render thread starts: `framebuffer_new`
zeroes every counter (`src/framebuffer.c` lines 215-222) and
`start_pipelines_idle` pre-allocates the fallback frame before spawning the
render thread (lines 693-702); `frame_count` starts at 0 (line 598). -/
def initFB : FB :=
  { current_frame := false
    fallback_frame := true
    last_input_time := 0
    frames_in := 0
    frames_out := 0
    frames_repeated := 0
    in_seq := 0
    last_pushed_seq := 0
    frame_count := 0 }

/-- `on_new_sample` (`src/framebuffer.c` lines 532-560): store the new
buffer in the slot, bump `frames_in` and `in_seq`, record the input time.
`now` is `g_get_monotonic_time() * 1000` (nanoseconds). -/
def on_new_sample (now : Nat) (fb : FB) : FB :=
  { fb with
    current_frame := true
    frames_in := fb.frames_in + 1
    in_seq := fb.in_seq + 1
    last_input_time := now }

/-- `frame_duration = gst_util_uint64_scale_int(GST_SECOND, 1, fps)`
(`src/framebuffer.c` line 586): integer division of one second by the
frame rate. -/
def frame_duration (fps : Nat) : Nat := GST_SECOND / fps

/-- The no-signal test of the render loop (`src/framebuffer.c` lines
611-613): `(fb->last_input_time > 0) && ((now - fb->last_input_time) >
DEFAULT_NO_SIGNAL_TIMEOUT)` in `guint64` arithmetic. -/
def signal_timeout (fb : FB) (now : Nat) : Prop :=
  0 < fb.last_input_time ∧ DEFAULT_NO_SIGNAL_TIMEOUT < sub64 now fb.last_input_time

instance (fb : FB) (now : Nat) : Decidable (signal_timeout fb now) := by
  unfold signal_timeout; infer_instance

/-- Which buffer one render-loop iteration pushes: a `gst_buffer_copy` of
the slot's current frame (capturing `current_seq = in_seq`), a copy of the
pre-allocated fallback frame, or a freshly created fallback frame when
`fb->fallback_frame` is still NULL. -/
inductive PushSrc
  | current : Nat → PushSrc
  | fallbackCopy
  | fallbackFresh
deriving DecidableEq, Repr

/-- The buffer pushed by one render-loop iteration together with the
timestamps stamped on it and the repeat marker. -/
structure PushOut where
  src : PushSrc
  pts : Nat
  dts : Nat
  duration : Nat
  is_repeat : Bool
deriving DecidableEq, Repr

/-- A default `PushOut`, used only as the `List.getD` fallback value. -/
def dummyOut : PushOut :=
  { src := .fallbackFresh, pts := 0, dts := 0, duration := 0, is_repeat := false }

/-- One iteration of the `while (fb->running)` body of `render_loop`
(`src/framebuffer.c` lines 602-678), on the `GST_FLOW_OK` path:

* under the slot mutex, choose the current frame (when it exists and the
  no-signal timeout has not expired) or the fallback frame;
* re-derive `is_repeat` from `current_seq == last_pushed_seq` and update
  `last_pushed_seq`;
* stamp `pts = frame_count * frame_duration` (`guint64`, hence `% U64`),
  `dts = pts`, `duration = frame_duration`;
* push, then bump `frames_out`, `frames_repeated` (on repeat) and
  `frame_count`. -/
def render_loop_iter (fps now : Nat) (fb : FB) : FB × PushOut :=
  let fd := frame_duration fps
  let chosen : PushSrc × Bool × Nat :=
    if fb.current_frame ∧ ¬ signal_timeout fb now then
      (.current fb.in_seq, false, fb.in_seq)
    else
      ((if fb.fallback_frame then .fallbackCopy else .fallbackFresh), true, 0)
  let src := chosen.1
  let is_repeat0 := chosen.2.1
  let current_seq := chosen.2.2
  let is_repeat := is_repeat0 || decide (current_seq = fb.last_pushed_seq)
  let pts := (fb.frame_count * fd) % U64
  let out : PushOut :=
    { src := src, pts := pts, dts := pts, duration := fd, is_repeat := is_repeat }
  let fb' : FB :=
    { fb with
      last_pushed_seq := current_seq
      frames_out := fb.frames_out + 1
      frames_repeated := fb.frames_repeated + (if is_repeat then 1 else 0)
      frame_count := fb.frame_count + 1 }
  (fb', out)

/-- An observable operation on the frame synchronizer: an input-callback
invocation or a render-loop iteration, each carrying the monotonic time
(nanoseconds) at which it runs. -/
inductive Ev
  | input : Nat → Ev
  | render : Nat → Ev
deriving DecidableEq, Repr

/-- Run a sequence of operations on the frame synchronizer, collecting the
buffers pushed by the render-loop iterations in order. -/
def runFB (fps : Nat) : List Ev → FB → FB × List PushOut
  | [], fb => (fb, [])
  | Ev.input t :: rest, fb => runFB fps rest (on_new_sample t fb)
  | Ev.render t :: rest, fb =>
      let p := render_loop_iter fps t fb
      let q := runFB fps rest p.1
      (q.1, p.2 :: q.2)

/-! ## Resilient A/B pipeline (`src/backend/gstreamer/resilient_tbc.c`)

GStreamer object pointers of `struct App` are modelled by their
non-NULL-ness; `last_buffer_time_ms` / `resume_start_time_ms` are
millisecond monotonic readings (`now_ms()`), with 0 meaning "unset".
`pending_rebuilds` counts the `rebuild_ingest_chain` idle sources queued by
`g_idle_add` and not yet dispatched; the bus callbacks and the idle
dispatch all run on the single GLib main thread, so they never interleave. -/

/-- `WATCHDOG_TIMEOUT_MS` (`resilient_tbc.c` line 20). -/
def WATCHDOG_TIMEOUT_MS : Nat := 2000

/-- `RESUME_THRESHOLD_MS` (`resilient_tbc.c` line 21). -/
def RESUME_THRESHOLD_MS : Nat := 100

/-- The fields of `struct App` (`resilient_tbc.c` lines 23-56) used by the
selector policy, the watchdog, the demux callback and the supervisor, plus
the count of queued rebuild idle sources. -/
structure App where
  selector : Bool
  fallback_pad : Bool
  ingest_pad : Bool
  decodebin : Bool
  ingest_linked : Bool
  on_ingest : Bool
  rebuilding : Bool
  last_buffer_time_ms : Nat
  resume_start_time_ms : Nat
  pending_rebuilds : Nat
deriving DecidableEq, Repr

/-- The state right after `build_pipeline` succeeds and the pipeline is set
playing (`resilient_tbc.c` lines 460-605, 679-699): selector and fallback
pad exist, the selector is forced to the fallback pad, no decode chain or
ingest pad exists yet, `memset(&app, 0, ...)` zeroed everything else. -/
def initApp : App :=
  { selector := true
    fallback_pad := true
    ingest_pad := false
    decodebin := false
    ingest_linked := false
    on_ingest := false
    rebuilding := false
    last_buffer_time_ms := 0
    resume_start_time_ms := 0
    pending_rebuilds := 0 }

/-- `switch_to_fallback` (`resilient_tbc.c` lines 191-199): requires the
selector and the fallback pad; when on ingest, activate the fallback pad
and clear `resume_start_time_ms`. -/
def switch_to_fallback (s : App) : App :=
  if ¬ s.selector ∨ ¬ s.fallback_pad then s
  else if s.on_ingest then
    { s with on_ingest := false, resume_start_time_ms := 0 }
  else s

/-- `switch_to_ingest` (`resilient_tbc.c` lines 201-209): requires the
selector and the ingest pad; when not on ingest, activate the ingest pad
and clear `resume_start_time_ms`. -/
def switch_to_ingest (s : App) : App :=
  if ¬ s.selector ∨ ¬ s.ingest_pad then s
  else if ¬ s.on_ingest then
    { s with on_ingest := true, resume_start_time_ms := 0 }
  else s

/-- `delayed_switch_to_ingest` (`resilient_tbc.c` lines 211-215): the body
of the one-shot 500 ms timer armed by `link_ingest_chain`; it calls
`switch_to_ingest` unconditionally. -/
def delayed_switch_to_ingest (s : App) : App := switch_to_ingest s

/-- `ingest_probe_cb` on a buffer (`resilient_tbc.c` lines 217-235):
record `last_buffer_time_ms := now`; while not on ingest, start the resume
clock at the first buffer, and switch to ingest once a buffer arrives
strictly more than `RESUME_THRESHOLD_MS` after the recorded start. -/
def ingest_probe_cb (now : Nat) (s : App) : App :=
  let s1 := { s with last_buffer_time_ms := now }
  if ¬ s1.on_ingest then
    if s1.resume_start_time_ms = 0 then
      { s1 with resume_start_time_ms := now }
    else if RESUME_THRESHOLD_MS < sub64 now s1.resume_start_time_ms then
      switch_to_ingest s1
    else s1
  else s1

/-- `watchdog_cb` (`resilient_tbc.c` lines 237-249): every 500 ms, if on
ingest and a buffer time is recorded and `now - last_buffer_time_ms`
exceeds `WATCHDOG_TIMEOUT_MS`, force fallback; otherwise do nothing. -/
def watchdog_cb (now : Nat) (s : App) : App :=
  if ¬ s.on_ingest then s
  else if s.last_buffer_time_ms = 0 then s
  else if WATCHDOG_TIMEOUT_MS < sub64 now s.last_buffer_time_ms then
    switch_to_fallback s
  else s

/-- `link_ingest_chain` success path (`resilient_tbc.c` lines 251-331):
build and link the normalize chain, request the selector ingest pad,
attach the buffer probe, set `ingest_linked`, seed `last_buffer_time_ms`
with the current time, arm the watchdog, and arm the one-shot 500 ms
`delayed_switch_to_ingest` timer. -/
def link_ingest_chain (now : Nat) (s : App) : App :=
  { s with ingest_pad := true, ingest_linked := true, last_buffer_time_ms := now }

/-- What `on_demux_pad_added` did with the new pad. -/
inductive DemuxAct
  | ignored
  | builtH264
  | builtH265
  | builtDecodebin
  | nonVideo
deriving DecidableEq, Repr

/-- `on_demux_pad_added` (`resilient_tbc.c` lines 351-458), keyed on the
pad's caps name: when a decode chain already exists (`app->decodebin` is
set) the pad is ignored for every caps name — the callback logs
"restart pipeline to change source" and returns without touching the graph
and without requesting any rebuild. Otherwise an H.264/H.265 chain is
built and `link_ingest_chain` runs immediately, or a `decodebin` is
attached for other video caps (its pad-added callback will link the chain
later), or nothing happens for non-video caps. -/
def on_demux_pad_added (now : Nat) (s : App) (name : String) : App × DemuxAct :=
  if s.decodebin then (s, .ignored)
  else if "video/x-h264".isPrefixOf name then
    ({ link_ingest_chain now s with decodebin := true }, .builtH264)
  else if "video/x-h265".isPrefixOf name then
    ({ link_ingest_chain now s with decodebin := true }, .builtH265)
  else if "video/".isPrefixOf name then
    ({ s with decodebin := true }, .builtDecodebin)
  else (s, .nonVideo)

/-- The element names classified as ingest errors by `on_bus_msg`
(`resilient_tbc.c` lines 619-626). -/
def ingest_error_sources : List String :=
  ["udpin", "inqueue", "tsparse", "demux", "decoder", "ing_vconv"]

/-- What the supervisor does with the main loop after a bus message. -/
inductive BusAction
  | keepRunning
  | quitLoop
deriving DecidableEq, Repr

/-- The `GST_MESSAGE_ERROR` arm of `on_bus_msg` (`resilient_tbc.c` lines
611-641), keyed on the message source's element name: an ingest-node error
forces fallback and, when a decode chain exists and no rebuild is pending,
sets `rebuilding` and queues `rebuild_ingest_chain` with `g_idle_add`; any
other error quits the main loop. -/
def on_bus_error (src : String) (s : App) : App × BusAction :=
  if src ∈ ingest_error_sources then
    let s1 := switch_to_fallback s
    let s2 :=
      if s1.decodebin ∧ ¬ s1.rebuilding then
        { s1 with rebuilding := true, pending_rebuilds := s1.pending_rebuilds + 1 }
      else s1
    (s2, .keepRunning)
  else (s, .quitLoop)

/-- `rebuild_ingest_chain` (`resilient_tbc.c` lines 126-189), dispatched
from the idle queue: force fallback, tear down the decode and normalize
chains (releasing the selector ingest pad and clearing `app->decodebin`
and `ingest_linked` via `teardown_ingest_chain`), replace tsparse/tsdemux,
and finally clear `rebuilding`; it returns `G_SOURCE_REMOVE`, consuming
the idle source. -/
def rebuild_ingest_chain (s : App) : App :=
  let s1 := switch_to_fallback s
  { s1 with
    ingest_pad := false
    decodebin := false
    ingest_linked := false
    rebuilding := false
    pending_rebuilds := s1.pending_rebuilds - 1 }

/-- Exit code of `main` (`resilient_tbc.c` lines 665-714): 1 when
`build_pipeline` fails, 1 when the pipeline refuses to go PLAYING, and 0
after `g_main_loop_run` returns — including when the supervisor quit the
loop on a core error. -/
def resilient_main_exit (build_ok play_ok : Bool) : Nat :=
  if ¬ build_ok then 1
  else if ¬ play_ok then 1
  else 0

/-- An event dispatched on the GLib main thread of `resilient_tbc.c`. -/
inductive REv
  | busErr : String → REv
  | idleRebuild
  | probe : Nat → REv
  | watchdog : Nat → REv
  | delayed
  | demuxPad : Nat → String → REv
deriving DecidableEq, Repr

/-- Dispatch one main-thread event. `idleRebuild` only fires when an idle
source is actually queued. -/
def rstep (s : App) (e : REv) : App :=
  match e with
  | .busErr src => (on_bus_error src s).1
  | .idleRebuild => if s.pending_rebuilds = 0 then s else rebuild_ingest_chain s
  | .probe t => ingest_probe_cb t s
  | .watchdog t => watchdog_cb t s
  | .delayed => delayed_switch_to_ingest s
  | .demuxPad t name => (on_demux_pad_added t s name).1

/-- Run a sequence of main-thread events. -/
def runR (evs : List REv) (s : App) : App := evs.foldl rstep s

/-- The single-flight invariant tying the `rebuilding` flag to the number
of queued `rebuild_ingest_chain` idle sources. -/
def rebuildInv (s : App) : Prop :=
  s.pending_rebuilds = if s.rebuilding then 1 else 0

/-! ## Helper lemmas -/

/-- For a monotonic clock, `guint64` subtraction is plain subtraction. -/
theorem sub64_eq (a b : Nat) (hb : b ≤ a) (ha : a < U64) : sub64 a b = a - b := by
  simp only [sub64, U64] at *
  omega

/-- `switch_to_fallback` only touches `on_ingest` and
`resume_start_time_ms`. -/
theorem switch_to_fallback_fields (s : App) :
    (switch_to_fallback s).selector = s.selector ∧
    (switch_to_fallback s).fallback_pad = s.fallback_pad ∧
    (switch_to_fallback s).ingest_pad = s.ingest_pad ∧
    (switch_to_fallback s).decodebin = s.decodebin ∧
    (switch_to_fallback s).rebuilding = s.rebuilding ∧
    (switch_to_fallback s).last_buffer_time_ms = s.last_buffer_time_ms ∧
    (switch_to_fallback s).pending_rebuilds = s.pending_rebuilds := by
  unfold switch_to_fallback
  split_ifs <;> simp

/-- `switch_to_ingest` only touches `on_ingest` and
`resume_start_time_ms`. -/
theorem switch_to_ingest_fields (s : App) :
    (switch_to_ingest s).selector = s.selector ∧
    (switch_to_ingest s).fallback_pad = s.fallback_pad ∧
    (switch_to_ingest s).ingest_pad = s.ingest_pad ∧
    (switch_to_ingest s).decodebin = s.decodebin ∧
    (switch_to_ingest s).rebuilding = s.rebuilding ∧
    (switch_to_ingest s).pending_rebuilds = s.pending_rebuilds := by
  unfold switch_to_ingest
  split_ifs <;> simp

/-- With the selector and the fallback pad present, `switch_to_fallback`
always lands on fallback. -/
theorem switch_to_fallback_on_ingest (s : App)
    (h1 : s.selector = true) (h2 : s.fallback_pad = true) :
    (switch_to_fallback s).on_ingest = false := by
  unfold switch_to_fallback
  split_ifs with ha hb
  · simp [h1, h2] at ha
  · rfl
  · simpa using hb

/-- With the selector and the ingest pad present, `switch_to_ingest`
always lands on ingest. -/
theorem switch_to_ingest_on_ingest (s : App)
    (h1 : s.selector = true) (h2 : s.ingest_pad = true) :
    (switch_to_ingest s).on_ingest = true := by
  unfold switch_to_ingest
  split_ifs with ha hb
  · simp [h1, h2] at ha
  · exact hb
  · rfl

/-- Position `n` of the pushed-buffer trace carries the timestamps of
iteration `frame_count + n`. -/
theorem runFB_getD_stamps (fps : Nat) (evs : List Ev) (fb : FB) (n : Nat)
    (h : n < ((runFB fps evs fb).2).length) :
    ((runFB fps evs fb).2.getD n dummyOut).pts
        = ((fb.frame_count + n) * frame_duration fps) % U64 ∧
    ((runFB fps evs fb).2.getD n dummyOut).dts
        = ((fb.frame_count + n) * frame_duration fps) % U64 ∧
    ((runFB fps evs fb).2.getD n dummyOut).duration = frame_duration fps := by
  induction evs generalizing fb n with
  | nil => simp [runFB] at h
  | cons e rest ih =>
    cases e with
    | input t =>
      simp only [runFB] at h ⊢
      simpa [on_new_sample] using ih (on_new_sample t fb) n h
    | render t =>
      simp only [runFB] at h ⊢
      cases n with
      | zero =>
        refine ⟨?_, ?_, ?_⟩ <;> simp [render_loop_iter]
      | succ m =>
        have hm : m < ((runFB fps rest (render_loop_iter fps t fb).1).2).length := by
          simpa using h
        have hfc : (render_loop_iter fps t fb).1.frame_count = fb.frame_count + 1 := rfl
        have harith : fb.frame_count + 1 + m = fb.frame_count + (m + 1) := by omega
        have := ih (render_loop_iter fps t fb).1 m hm
        rw [hfc, harith] at this
        simpa [List.getD_cons_succ] using this

/-- `switch_to_fallback` does not touch the rebuild flag. -/
theorem switch_to_fallback_rebuilding (s : App) :
    (switch_to_fallback s).rebuilding = s.rebuilding := by
  unfold switch_to_fallback; split_ifs <;> rfl

/-- `switch_to_fallback` does not touch the rebuild idle queue. -/
theorem switch_to_fallback_pending (s : App) :
    (switch_to_fallback s).pending_rebuilds = s.pending_rebuilds := by
  unfold switch_to_fallback; split_ifs <;> rfl

/-- `switch_to_fallback` does not touch the decode-chain marker. -/
theorem switch_to_fallback_decodebin (s : App) :
    (switch_to_fallback s).decodebin = s.decodebin := by
  unfold switch_to_fallback; split_ifs <;> rfl

/-- `switch_to_ingest` does not touch the rebuild flag. -/
theorem switch_to_ingest_rebuilding (s : App) :
    (switch_to_ingest s).rebuilding = s.rebuilding := by
  unfold switch_to_ingest; split_ifs <;> rfl

/-- `switch_to_ingest` does not touch the rebuild idle queue. -/
theorem switch_to_ingest_pending (s : App) :
    (switch_to_ingest s).pending_rebuilds = s.pending_rebuilds := by
  unfold switch_to_ingest; split_ifs <;> rfl

/-- The buffer probe does not touch the rebuild flag or queue. -/
theorem ingest_probe_cb_rebuild_fields (now : Nat) (s : App) :
    (ingest_probe_cb now s).rebuilding = s.rebuilding ∧
    (ingest_probe_cb now s).pending_rebuilds = s.pending_rebuilds := by
  simp only [ingest_probe_cb]
  split_ifs <;>
    simp [switch_to_ingest_rebuilding, switch_to_ingest_pending]

/-- The watchdog does not touch the rebuild flag or queue. -/
theorem watchdog_cb_rebuild_fields (now : Nat) (s : App) :
    (watchdog_cb now s).rebuilding = s.rebuilding ∧
    (watchdog_cb now s).pending_rebuilds = s.pending_rebuilds := by
  simp only [watchdog_cb]
  split_ifs <;>
    simp [switch_to_fallback_rebuilding, switch_to_fallback_pending]

/-- The demux pad-added callback does not touch the rebuild flag or
queue. -/
theorem on_demux_pad_added_rebuild_fields (now : Nat) (s : App) (name : String) :
    (on_demux_pad_added now s name).1.rebuilding = s.rebuilding ∧
    (on_demux_pad_added now s name).1.pending_rebuilds = s.pending_rebuilds := by
  simp only [on_demux_pad_added]
  split_ifs <;> simp [link_ingest_chain]

/-- Every main-thread event preserves the single-flight invariant. -/
theorem rstep_rebuildInv (s : App) (e : REv) (h : rebuildInv s) :
    rebuildInv (rstep s e) := by
  cases e with
  | busErr src =>
    by_cases hmem : src ∈ ingest_error_sources
    · by_cases hsched :
          (switch_to_fallback s).decodebin = true ∧
            ¬ (switch_to_fallback s).rebuilding = true
      · have hstep : rstep s (REv.busErr src) =
            { switch_to_fallback s with
              rebuilding := true
              pending_rebuilds := (switch_to_fallback s).pending_rebuilds + 1 } := by
          simp [rstep, on_bus_error, hmem, hsched]
        have hrf : s.rebuilding = false := by
          have h2 := hsched.2
          rw [switch_to_fallback_rebuilding] at h2
          simpa using h2
        rw [hstep]
        unfold rebuildInv at h ⊢
        rw [hrf] at h
        simp only [switch_to_fallback_pending]
        simp at h ⊢
        omega
      · have hstep : rstep s (REv.busErr src) = switch_to_fallback s := by
          simp only [rstep, on_bus_error, if_pos hmem]
          rw [if_neg hsched]
        rw [hstep]
        unfold rebuildInv at h ⊢
        rw [switch_to_fallback_pending, switch_to_fallback_rebuilding]
        exact h
    · have hstep : rstep s (REv.busErr src) = s := by
        simp [rstep, on_bus_error, hmem]
      rw [hstep]; exact h
  | idleRebuild =>
    by_cases hz : s.pending_rebuilds = 0
    · have hstep : rstep s REv.idleRebuild = s := by simp [rstep, hz]
      rw [hstep]; exact h
    · have hstep : rstep s REv.idleRebuild = rebuild_ingest_chain s := by
        simp [rstep, hz]
      rw [hstep]
      unfold rebuildInv at h ⊢
      have hpend :
          (rebuild_ingest_chain s).pending_rebuilds
            = (switch_to_fallback s).pending_rebuilds - 1 := rfl
      have hreb : (rebuild_ingest_chain s).rebuilding = false := rfl
      rw [hpend, hreb, switch_to_fallback_pending]
      show s.pending_rebuilds - 1 = 0
      split_ifs at h <;> omega
  | probe t =>
    have hf := ingest_probe_cb_rebuild_fields t s
    unfold rebuildInv at h ⊢
    show (ingest_probe_cb t s).pending_rebuilds
        = if (ingest_probe_cb t s).rebuilding = true then 1 else 0
    rw [hf.1, hf.2]; exact h
  | watchdog t =>
    have hf := watchdog_cb_rebuild_fields t s
    unfold rebuildInv at h ⊢
    show (watchdog_cb t s).pending_rebuilds
        = if (watchdog_cb t s).rebuilding = true then 1 else 0
    rw [hf.1, hf.2]; exact h
  | delayed =>
    unfold rebuildInv at h ⊢
    show (delayed_switch_to_ingest s).pending_rebuilds
        = if (delayed_switch_to_ingest s).rebuilding = true then 1 else 0
    unfold delayed_switch_to_ingest
    rw [switch_to_ingest_rebuilding, switch_to_ingest_pending]
    exact h
  | demuxPad t name =>
    have hf := on_demux_pad_added_rebuild_fields t s name
    unfold rebuildInv at h ⊢
    show (on_demux_pad_added t s name).1.pending_rebuilds
        = if (on_demux_pad_added t s name).1.rebuilding = true then 1 else 0
    rw [hf.1, hf.2]; exact h

/-- The single-flight invariant holds along every main-thread run. -/
theorem runR_rebuildInv (evs : List REv) (s : App) (h : rebuildInv s) :
    rebuildInv (runR evs s) := by
  induction evs generalizing s with
  | nil => exact h
  | cons e rest ih =>
    unfold runR at ih ⊢
    rw [List.foldl_cons]
    exact ih (rstep s e) (rstep_rebuildInv s e h)

/-! ## Claim theorems -/

/-- Claim C1 (confirmed): in any run of the frame synchronizer starting
from the initial state, the buffer pushed by render-loop iteration `n`
(counting from 0) carries `pts = n * frame_duration` (in `guint64`
arithmetic), `dts = pts` and `duration = frame_duration`, where
`frame_duration = 1 second / fps`; consequently, whenever the frame
duration is positive and the products do not overflow 64 bits, each pushed
PTS is strictly greater than its predecessor's. -/
theorem render_loop_timestamp_linearity (fps : Nat) (evs : List Ev) (n : Nat)
    (h : n < ((runFB fps evs initFB).2).length) :
    ((runFB fps evs initFB).2.getD n dummyOut).pts = (n * frame_duration fps) % U64 ∧
    ((runFB fps evs initFB).2.getD n dummyOut).dts
      = ((runFB fps evs initFB).2.getD n dummyOut).pts ∧
    ((runFB fps evs initFB).2.getD n dummyOut).duration = frame_duration fps ∧
    (n + 1 < ((runFB fps evs initFB).2).length → 0 < frame_duration fps →
      (n + 1) * frame_duration fps < U64 →
      ((runFB fps evs initFB).2.getD n dummyOut).pts
        < ((runFB fps evs initFB).2.getD (n + 1) dummyOut).pts) := by
  have h0 := runFB_getD_stamps fps evs initFB n h
  simp only [show initFB.frame_count = 0 from rfl, Nat.zero_add] at h0
  refine ⟨h0.1, ?_, h0.2.2, ?_⟩
  · rw [h0.1, h0.2.1]
  · intro h2 hfd hlt
    have h1 := runFB_getD_stamps fps evs initFB (n + 1) h2
    simp only [show initFB.frame_count = 0 from rfl, Nat.zero_add] at h1
    rw [h0.1, h1.1]
    have hle : n * frame_duration fps < (n + 1) * frame_duration fps :=
      Nat.mul_lt_mul_of_lt_of_le (Nat.lt_succ_self n) (Nat.le_refl _) hfd
    have hub : n * frame_duration fps < U64 := lt_trans hle hlt
    rw [Nat.mod_eq_of_lt hub, Nat.mod_eq_of_lt hlt]
    exact hle

/-- Witness for C1: a concrete two-iteration run at 25 fps; the first
push has `pts = 0` and the second a strictly larger PTS. -/
theorem render_loop_timestamp_linearity_witness :
    (0 < ((runFB 25 [Ev.render 0, Ev.render 40000000] initFB).2).length) ∧
    ((runFB 25 [Ev.render 0, Ev.render 40000000] initFB).2.getD 0 dummyOut).pts
      = (0 * frame_duration 25) % U64 ∧
    ((runFB 25 [Ev.render 0, Ev.render 40000000] initFB).2.getD 0 dummyOut).pts
      < ((runFB 25 [Ev.render 0, Ev.render 40000000] initFB).2.getD 1 dummyOut).pts :=
  ⟨by decide,
   (render_loop_timestamp_linearity 25 [Ev.render 0, Ev.render 40000000] 0 (by decide)).1,
   (render_loop_timestamp_linearity 25 [Ev.render 0, Ev.render 40000000] 0
       (by decide)).2.2.2 (by decide) (by decide) (by decide)⟩

/-- Claim C2 (counterexample): the claim routes to the fallback frame
whenever `(now - last_input_time)` is not strictly below the 5 s timeout,
but at exactly 5 s the code still pushes a copy of the current frame,
because `render_loop` tests `(now - last_input_time) >
DEFAULT_NO_SIGNAL_TIMEOUT` strictly. -/
theorem slot_selection_boundary_cex :
    (render_loop_iter 25 5000001000
        { initFB with current_frame := true, last_input_time := 1000, in_seq := 7 }).2.src
      = PushSrc.current 7 ∧
    ¬ (sub64 5000001000 1000 < DEFAULT_NO_SIGNAL_TIMEOUT) := by decide

/-- Claim C2 (amended): under the slot lock, if a current frame exists and
the no-signal test fails — i.e. it is not the case that an input was
recorded and `now - last_input_time` strictly exceeds the 5 s timeout —
a copy of the current frame is pushed and `current_seq` is captured from
`in_seq`; otherwise the pre-allocated fallback frame is pushed, marked as
a repeat, and `current_seq` stays 0. -/
theorem slot_selection_amended (fps now : Nat) (fb : FB) :
    (fb.current_frame = true → ¬ signal_timeout fb now →
      (render_loop_iter fps now fb).2.src = PushSrc.current fb.in_seq ∧
      (render_loop_iter fps now fb).1.last_pushed_seq = fb.in_seq) ∧
    ((fb.current_frame = false ∨ signal_timeout fb now) →
      (render_loop_iter fps now fb).2.is_repeat = true ∧
      (fb.fallback_frame = true →
        (render_loop_iter fps now fb).2.src = PushSrc.fallbackCopy) ∧
      (render_loop_iter fps now fb).1.last_pushed_seq = 0) ∧
    (signal_timeout fb now ↔
      0 < fb.last_input_time ∧
        DEFAULT_NO_SIGNAL_TIMEOUT < sub64 now fb.last_input_time) := by
  refine ⟨?_, ?_, Iff.rfl⟩
  · intro hc ht
    constructor <;> simp [render_loop_iter, hc, ht]
  · intro hd
    have hcond : ¬ (fb.current_frame = true ∧ ¬ signal_timeout fb now) := by
      rcases hd with hd | hd
      · simp [hd]
      · simp [hd]
    refine ⟨?_, ?_, ?_⟩
    · simp [render_loop_iter, hcond]
    · intro hf
      simp [render_loop_iter, hcond, hf]
    · simp [render_loop_iter, hcond]

/-- Witness for the amended C2: with a fresh current frame at time 0, the
iteration pushes a copy of the current frame carrying sequence 0. -/
theorem slot_selection_amended_witness :
    (render_loop_iter 25 0 { initFB with current_frame := true }).2.src
      = PushSrc.current 0 :=
  ((slot_selection_amended 25 0 { initFB with current_frame := true }).1
    rfl (by decide)).1

/-- Claim C8 (counterexample): `last_pushed_seq` is not monotonically
non-decreasing. Run: one input arrives at t = 100 ns; a render iteration
at t = 200 ns pushes it, setting `last_pushed_seq = 1`; a render iteration
at t = 6 s hits the no-signal timeout, pushes the fallback frame, and
resets `last_pushed_seq` to 0 < 1. -/
theorem last_pushed_seq_decreases_cex :
    (runFB 25 [Ev.input 100, Ev.render 200, Ev.render 6000000000] initFB).1.last_pushed_seq
      < (runFB 25 [Ev.input 100, Ev.render 200] initFB).1.last_pushed_seq := by decide

/-- Claim C8 (amended): `frames_in`, `frames_out`, `frames_repeated` and
`in_seq` are monotonically non-decreasing across every sequence of
input-sample callbacks and render-loop iterations (while `last_pushed_seq`
is not, see the counterexample). -/
theorem counters_monotone_amended (fps : Nat) (evs : List Ev) (fb : FB) :
    fb.frames_in ≤ (runFB fps evs fb).1.frames_in ∧
    fb.frames_out ≤ (runFB fps evs fb).1.frames_out ∧
    fb.frames_repeated ≤ (runFB fps evs fb).1.frames_repeated ∧
    fb.in_seq ≤ (runFB fps evs fb).1.in_seq := by
  induction evs generalizing fb with
  | nil => simp [runFB]
  | cons e rest ih =>
    cases e with
    | input t =>
      obtain ⟨a, b, c, d⟩ := ih (on_new_sample t fb)
      have e1 : (on_new_sample t fb).frames_in = fb.frames_in + 1 := rfl
      have e2 : (on_new_sample t fb).frames_out = fb.frames_out := rfl
      have e3 : (on_new_sample t fb).frames_repeated = fb.frames_repeated := rfl
      have e4 : (on_new_sample t fb).in_seq = fb.in_seq + 1 := rfl
      simp only [runFB]
      refine ⟨?_, ?_, ?_, ?_⟩ <;> omega
    | render t =>
      obtain ⟨a, b, c, d⟩ := ih (render_loop_iter fps t fb).1
      have e1 : (render_loop_iter fps t fb).1.frames_in = fb.frames_in := rfl
      have e2 : (render_loop_iter fps t fb).1.frames_out = fb.frames_out + 1 := rfl
      have e3 : fb.frames_repeated ≤ (render_loop_iter fps t fb).1.frames_repeated :=
        Nat.le_add_right _ _
      have e4 : (render_loop_iter fps t fb).1.in_seq = fb.in_seq := rfl
      simp only [runFB]
      refine ⟨?_, ?_, ?_, ?_⟩ <;> omega

/-- Claim C4 (confirmed): whenever the watchdog fires, if the selector is
on ingest, a buffer time has been recorded, and `now - last_buffer_time`
exceeds `WATCHDOG_TIMEOUT_MS` (2000 ms), the selector is switched to
fallback; and when the selector is not on ingest the watchdog changes
nothing, so it never switches away from fallback. -/
theorem watchdog_forces_fallback (now : Nat) (s : App) :
    (s.on_ingest = true → s.selector = true → s.fallback_pad = true →
      s.last_buffer_time_ms ≠ 0 → s.last_buffer_time_ms ≤ now → now < U64 →
      WATCHDOG_TIMEOUT_MS < now - s.last_buffer_time_ms →
      (watchdog_cb now s).on_ingest = false) ∧
    (s.on_ingest = false → watchdog_cb now s = s) := by
  constructor
  · intro hi hsel hfb hlb hle hlt hgt
    have hsub : sub64 now s.last_buffer_time_ms = now - s.last_buffer_time_ms :=
      sub64_eq now s.last_buffer_time_ms hle hlt
    unfold watchdog_cb
    rw [hsub]
    simp only [hi, hlb]
    rw [if_neg not_false, if_pos hgt]
    exact switch_to_fallback_on_ingest s hsel hfb
  · intro hi
    unfold watchdog_cb
    rw [if_pos (by simp [hi])]

/-- Witness for C4: on ingest with the last buffer at 10 ms, the watchdog
firing at 3000 ms (2990 ms of silence) lands on fallback; off ingest it is
a no-op. -/
theorem watchdog_forces_fallback_witness :
    (watchdog_cb 3000
        { initApp with
          on_ingest := true
          ingest_pad := true
          last_buffer_time_ms := 10 }).on_ingest = false ∧
    watchdog_cb 3000 initApp = initApp :=
  ⟨(watchdog_forces_fallback 3000
      { initApp with
        on_ingest := true
        ingest_pad := true
        last_buffer_time_ms := 10 }).1
      rfl rfl rfl (by decide) (by decide) (by decide) (by decide),
   (watchdog_forces_fallback 3000 initApp).2 rfl⟩

/-- Claim C5 (counterexample): the selector can transition to ingest with
no ingest buffer ever observed: `link_ingest_chain` arms a one-shot 500 ms
timer whose callback `delayed_switch_to_ingest` switches unconditionally.
Starting from the built pipeline with an ingest pad and
`last_buffer_time_ms = 0` (no buffer has ever passed the probe), the timer
lands on ingest — refuting "exactly when ingest buffers have been flowing
continuously for at least the resume threshold, and not before sustained
flow is observed". -/
theorem resume_without_flow_cex :
    (delayed_switch_to_ingest { initApp with ingest_pad := true }).on_ingest = true ∧
    ({ initApp with ingest_pad := true } : App).last_buffer_time_ms = 0 ∧
    ({ initApp with ingest_pad := true } : App).on_ingest = false := by decide

/-- Claim C5 (amended): the selector transitions to ingest in two ways:
(a) unconditionally, 500 ms after the ingest chain is linked, via the
one-shot `delayed_switch_to_ingest` timer; (b) while on fallback, when a
buffer reaches the probe strictly more than `RESUME_THRESHOLD_MS` (100 ms)
after the first buffer recorded since the selector last switched —
without any continuity check on the buffers in between; a probe buffer at
or before the 100 ms mark, or the first such buffer, does not switch. -/
theorem resume_switch_amended (now : Nat) (s : App) :
    (s.selector = true → s.ingest_pad = true →
      (delayed_switch_to_ingest s).on_ingest = true) ∧
    (s.on_ingest = false → s.selector = true → s.ingest_pad = true →
      s.resume_start_time_ms ≠ 0 →
      RESUME_THRESHOLD_MS < sub64 now s.resume_start_time_ms →
      (ingest_probe_cb now s).on_ingest = true) ∧
    (s.on_ingest = false → s.resume_start_time_ms ≠ 0 →
      sub64 now s.resume_start_time_ms ≤ RESUME_THRESHOLD_MS →
      (ingest_probe_cb now s).on_ingest = false) ∧
    (s.on_ingest = false → s.resume_start_time_ms = 0 →
      (ingest_probe_cb now s).on_ingest = false ∧
      (ingest_probe_cb now s).resume_start_time_ms = now) := by
  refine ⟨?_, ?_, ?_, ?_⟩
  · intro hsel hpad
    unfold delayed_switch_to_ingest
    exact switch_to_ingest_on_ingest s hsel hpad
  · intro hoi hsel hpad hrs hgt
    simp only [ingest_probe_cb]
    rw [if_pos (by simp [hoi]), if_neg hrs, if_pos hgt]
    exact switch_to_ingest_on_ingest _ hsel hpad
  · intro hoi hrs hle
    simp only [ingest_probe_cb]
    rw [if_pos (by simp [hoi]), if_neg hrs, if_neg (by omega)]
    exact hoi
  · intro hoi hrs
    simp only [ingest_probe_cb]
    rw [if_pos (by simp [hoi]), if_pos hrs]
    exact ⟨hoi, rfl⟩

/-- Witness for the amended C5: on fallback with the resume clock started
at 50 ms, a probe buffer at 151 ms (101 ms later) switches to ingest; a
probe buffer at 150 ms (exactly 100 ms later) does not. -/
theorem resume_switch_amended_witness :
    (ingest_probe_cb 151
        { initApp with ingest_pad := true, resume_start_time_ms := 50 }).on_ingest
      = true ∧
    (ingest_probe_cb 150
        { initApp with ingest_pad := true, resume_start_time_ms := 50 }).on_ingest
      = false :=
  ⟨(resume_switch_amended 151
      { initApp with ingest_pad := true, resume_start_time_ms := 50 }).2.1
      rfl rfl rfl (by decide) (by decide),
   (resume_switch_amended 150
      { initApp with ingest_pad := true, resume_start_time_ms := 50 }).2.2.1
      rfl (by decide) (by decide)⟩

/-- Claim C6 (counterexample): with a decode chain already present, the
demux pad-added callback for a video endpoint leaves the state unchanged
and performs the `ignored` action: in particular `rebuilding` stays false
and no `rebuild_ingest_chain` idle source is queued, refuting "a graph
rebuild is requested instead". -/
theorem demux_existing_chain_cex :
    on_demux_pad_added 0
        { initApp with decodebin := true, ingest_pad := true } "video/x-h264"
      = ({ initApp with decodebin := true, ingest_pad := true }, DemuxAct.ignored) ∧
    ({ initApp with decodebin := true, ingest_pad := true } : App).rebuilding = false ∧
    ({ initApp with decodebin := true, ingest_pad := true } : App).pending_rebuilds = 0 := by
  decide

/-- Claim C6 (amended): for every invocation of the demux pad-added
callback while a decode chain exists, the callback does not replace the
chain — it returns with the whole state unchanged and the pad ignored; no
graph rebuild is requested (rebuilds are only scheduled by the bus-error
supervisor). -/
theorem demux_existing_chain_ignores (now : Nat) (s : App) (name : String)
    (h : s.decodebin = true) :
    on_demux_pad_added now s name = (s, DemuxAct.ignored) := by
  simp [on_demux_pad_added, h]

/-- Witness for the amended C6: the concrete invocation of the
counterexample, recovered by applying the theorem. -/
theorem demux_existing_chain_ignores_witness :
    on_demux_pad_added 7 { initApp with decodebin := true } "video/x-h265"
      = ({ initApp with decodebin := true }, DemuxAct.ignored) :=
  demux_existing_chain_ignores 7 { initApp with decodebin := true } "video/x-h265" rfl

/-- Claim C7 (counterexample): an error from a non-ingest node ("encoder",
the vtenc element) quits the main loop, but the process then terminates
through the tail of `main`, which returns 0 — not a non-zero exit code as
claimed. -/
theorem core_error_exit_code_cex :
    on_bus_error "encoder" initApp = (initApp, BusAction.quitLoop) ∧
    resilient_main_exit true true = 0 := by decide

/-- Claim C7 (amended): an error whose source is one of the six named
ingest nodes forces the selector to fallback and — when a decode chain
exists and no rebuild is pending — flags `rebuilding` and queues exactly
one rebuild, with the process kept running (and with no second rebuild
queued when one is already pending); an error from any other node quits
the main loop, after which `main` terminates with exit code 0 (the same
path as a graceful shutdown; non-zero exits happen only at startup). -/
theorem bus_error_dispatch_amended (src : String) (s : App) :
    (src ∈ ingest_error_sources →
      (on_bus_error src s).2 = BusAction.keepRunning ∧
      (s.selector = true → s.fallback_pad = true →
        (on_bus_error src s).1.on_ingest = false) ∧
      (s.decodebin = true → s.rebuilding = false →
        (on_bus_error src s).1.rebuilding = true ∧
        (on_bus_error src s).1.pending_rebuilds = s.pending_rebuilds + 1) ∧
      (s.rebuilding = true → (on_bus_error src s).1 = switch_to_fallback s)) ∧
    (src ∉ ingest_error_sources →
      on_bus_error src s = (s, BusAction.quitLoop) ∧
      resilient_main_exit true true = 0) := by
  constructor
  · intro hmem
    refine ⟨?_, ?_, ?_, ?_⟩
    · simp [on_bus_error, hmem]
    · intro hsel hfb
      have hs1 : (switch_to_fallback s).on_ingest = false :=
        switch_to_fallback_on_ingest s hsel hfb
      simp only [on_bus_error, if_pos hmem]
      split_ifs with hc
      · exact hs1
      · exact hs1
    · intro hdb hrb
      have hc : (switch_to_fallback s).decodebin = true ∧
          ¬ (switch_to_fallback s).rebuilding = true := by
        constructor
        · rw [switch_to_fallback_decodebin]; exact hdb
        · rw [switch_to_fallback_rebuilding]; simp [hrb]
      simp only [on_bus_error, if_pos hmem]
      rw [if_pos hc]
      refine ⟨rfl, ?_⟩
      show (switch_to_fallback s).pending_rebuilds + 1 = s.pending_rebuilds + 1
      rw [switch_to_fallback_pending]
    · intro hrb
      have hc : ¬ ((switch_to_fallback s).decodebin = true ∧
          ¬ (switch_to_fallback s).rebuilding = true) := by
        intro hand
        exact hand.2 (by rw [switch_to_fallback_rebuilding]; exact hrb)
      simp only [on_bus_error, if_pos hmem]
      rw [if_neg hc]
  · intro hmem
    exact ⟨by simp [on_bus_error, hmem], rfl⟩

/-- Witness for the amended C7: an error from "udpin" with a decode chain
present keeps the process running and queues one rebuild; an error from
"outsink" quits. -/
theorem bus_error_dispatch_amended_witness :
    (on_bus_error "udpin" { initApp with decodebin := true }).2
      = BusAction.keepRunning ∧
    (on_bus_error "udpin" { initApp with decodebin := true }).1.rebuilding = true ∧
    on_bus_error "outsink" initApp = (initApp, BusAction.quitLoop) :=
  ⟨((bus_error_dispatch_amended "udpin" { initApp with decodebin := true }).1
      (by decide)).1,
   (((bus_error_dispatch_amended "udpin" { initApp with decodebin := true }).1
      (by decide)).2.2.1 rfl rfl).1,
   (((bus_error_dispatch_amended "outsink" initApp).2 (by decide))).1⟩

/-- Claim C9 (confirmed): at most one rebuild is ever pending at a time —
along every main-thread run from the initial state the number of queued
`rebuild_ingest_chain` idle sources never exceeds 1 — and while the
`rebuilding` flag is set, a further ingest-error bus message does not
queue a second rebuild (and leaves the flag set). -/
theorem rebuild_single_flight (evs : List REv) (src : String) (s : App) :
    (runR evs initApp).pending_rebuilds ≤ 1 ∧
    (s.rebuilding = true →
      (on_bus_error src s).1.pending_rebuilds = s.pending_rebuilds ∧
      (on_bus_error src s).1.rebuilding = true) := by
  constructor
  · have hinv : rebuildInv (runR evs initApp) :=
      runR_rebuildInv evs initApp (by unfold rebuildInv initApp; simp)
    unfold rebuildInv at hinv
    split_ifs at hinv <;> omega
  · intro hrb
    by_cases hmem : src ∈ ingest_error_sources
    · have hc : ¬ ((switch_to_fallback s).decodebin = true ∧
          ¬ (switch_to_fallback s).rebuilding = true) := by
        intro hand
        exact hand.2 (by rw [switch_to_fallback_rebuilding]; exact hrb)
      have hstep : (on_bus_error src s).1 = switch_to_fallback s := by
        simp only [on_bus_error, if_pos hmem]
        rw [if_neg hc]
      rw [hstep, switch_to_fallback_pending, switch_to_fallback_rebuilding]
      exact ⟨rfl, hrb⟩
    · have hstep : on_bus_error src s = (s, BusAction.quitLoop) := by
        simp [on_bus_error, hmem]
      rw [hstep]
      exact ⟨rfl, hrb⟩

/-- Witness for C9: a run that builds a decode chain and then receives two
demux errors still has at most one rebuild queued; and a "tsparse" error
while `rebuilding` is set leaves the queue at 1. -/
theorem rebuild_single_flight_witness :
    (runR [REv.demuxPad 0 "video/x-h264", REv.busErr "demux", REv.busErr "demux"]
        initApp).pending_rebuilds ≤ 1 ∧
    (on_bus_error "tsparse"
        { initApp with rebuilding := true, decodebin := true, pending_rebuilds := 1 }
      ).1.pending_rebuilds
      = ({ initApp with rebuilding := true, decodebin := true, pending_rebuilds := 1 }
          : App).pending_rebuilds :=
  ⟨(rebuild_single_flight
      [REv.demuxPad 0 "video/x-h264", REv.busErr "demux", REv.busErr "demux"]
      "tsparse"
      { initApp with rebuilding := true, decodebin := true, pending_rebuilds := 1 }).1,
   ((rebuild_single_flight
      [REv.demuxPad 0 "video/x-h264", REv.busErr "demux", REv.busErr "demux"]
      "tsparse"
      { initApp with rebuilding := true, decodebin := true, pending_rebuilds := 1 }).2
      rfl).1⟩

/-- Claim C3 (code evaluation): the top-level `src/framebuffer.c` builds
its appsrc with `do-timestamp=false` for every codec/container
combination, but the backend revision
`src/backend/src/framebuffer/framebuffer.c` builds `do-timestamp=true`
appsrcs in its SHM, VP8-RTP and RAW-RTP output modes; only its default
H.264 MPEG-TS mode disables automatic timestamping. -/
theorem appsrc_do_timestamp_eval :
    (∀ c k, fb_appsrc_do_timestamp c k = false) ∧
    backend_appsrc_do_timestamp true false false = true ∧
    backend_appsrc_do_timestamp false true false = true ∧
    backend_appsrc_do_timestamp false false true = true ∧
    backend_appsrc_do_timestamp false false false = false :=
  ⟨fun _ _ => rfl, rfl, rfl, rfl, rfl⟩

/-- Claim C10 (confirmed): `string_to_codec` and `string_to_container` are
total functions (they return a value for every string), compare
case-insensitively (ASCII, like `strcasecmp`), honour the aliases
none→raw, avc→h264 and hevc→h265, and fall back to `CODEC_H264`
respectively `CONTAINER_RTP` on every unrecognised spelling — even though
the container default installed by `framebuffer_new` and documented by
`print_usage` is `CONTAINER_MPEGTS`, not `CONTAINER_RTP`. -/
theorem string_to_codec_total_spec :
    (∀ s t : String, str_lower s = str_lower t →
      string_to_codec s = string_to_codec t ∧
      string_to_container s = string_to_container t) ∧
    string_to_codec "NONE" = OutputCodec.RAW ∧
    string_to_codec "Avc" = OutputCodec.H264 ∧
    string_to_codec "hevc" = OutputCodec.H265 ∧
    (∀ s : String, str_lower s ∉ codec_names →
      string_to_codec s = OutputCodec.H264) ∧
    (∀ s : String, str_lower s ∉ container_names →
      string_to_container s = OutputContainer.RTP) ∧
    framebuffer_default_container = OutputContainer.MPEGTS ∧
    OutputContainer.MPEGTS ≠ OutputContainer.RTP := by
  refine ⟨?_, by decide, by decide, by decide, ?_, ?_, rfl, by decide⟩
  · intro s t h
    constructor <;> simp only [string_to_codec, string_to_container, caseEq, h]
  · intro s h
    simp only [codec_names, List.mem_cons, List.not_mem_nil, or_false, not_or] at h
    obtain ⟨h1, h2, h3, h4, h5, h6, h7, h8⟩ := h
    unfold string_to_codec caseEq
    simp only [show str_lower "raw" = "raw" from by decide,
      show str_lower "none" = "none" from by decide,
      show str_lower "h264" = "h264" from by decide,
      show str_lower "avc" = "avc" from by decide,
      show str_lower "h265" = "h265" from by decide,
      show str_lower "hevc" = "hevc" from by decide,
      show str_lower "vp8" = "vp8" from by decide,
      show str_lower "vp9" = "vp9" from by decide]
    simp [h1, h2, h3, h4, h5, h6, h7, h8]
  · intro s h
    simp only [container_names, List.mem_cons, List.not_mem_nil, or_false, not_or] at h
    obtain ⟨h1, h2, h3, h4, h5, h6, h7, h8, h9, h10, h11⟩ := h
    unfold string_to_container caseEq
    simp only [show str_lower "rtp" = "rtp" from by decide,
      show str_lower "mpegts" = "mpegts" from by decide,
      show str_lower "ts" = "ts" from by decide,
      show str_lower "shm" = "shm" from by decide,
      show str_lower "shmem" = "shmem" from by decide,
      show str_lower "raw" = "raw" from by decide,
      show str_lower "none" = "none" from by decide,
      show str_lower "file" = "file" from by decide,
      show str_lower "mp4" = "mp4" from by decide,
      show str_lower "mkv" = "mkv" from by decide,
      show str_lower "avi" = "avi" from by decide]
    simp [h1, h2, h3, h4, h5, h6, h7, h8, h9, h10, h11]

/-- Witness for C10: "qqq" is recognised by neither table and maps to the
H.264 codec default and the RTP container default. -/
theorem string_to_codec_total_spec_witness :
    str_lower "qqq" ∉ codec_names ∧ string_to_codec "qqq" = OutputCodec.H264 ∧
    str_lower "qqq" ∉ container_names ∧
    string_to_container "qqq" = OutputContainer.RTP :=
  ⟨by decide, string_to_codec_total_spec.2.2.2.2.1 "qqq" (by decide),
   by decide, string_to_codec_total_spec.2.2.2.2.2.1 "qqq" (by decide)⟩
